import Mathlib

/-!
Shallow embedding of the `teamspeak-channel-squatter` bot (Bot.js and
Factory.js) together with proofs about its configuration builder, its
handshake sequence and its channel-guard event handlers.

JavaScript runtime values that the code manipulates are modelled by the
inductive type `JSVal`; `undefined` is an explicit value so that optional
arguments and missing object fields can be represented faithfully.
Asynchronous request/response exchanges are modelled by an oracle of
scripted transport responses consumed in the order requests are sent.
-/

/-- Model of the JavaScript values flowing through the bot: `undefined`,
`null`, booleans, (integer) numbers, strings and functions (identified by
an opaque tag).  Structural equality on `JSVal` coincides with JavaScript
strict equality (`===`) on these values; in particular a number is never
equal to a string. -/
inductive JSVal where
  | undefined : JSVal
  | null : JSVal
  | bool : Bool → JSVal
  | num : Int → JSVal
  | str : String → JSVal
  | fn : Nat → JSVal
deriving DecidableEq, Repr

/-- lodash `isUndefined`. -/
def isUndefined (v : JSVal) : Bool :=
  match v with
  | .undefined => true
  | _ => false

/-- lodash `isEmpty`: `undefined`, `null`, numbers, booleans and functions
have no length/size and count as empty; a string is empty iff it has no
characters. -/
def isEmpty (v : JSVal) : Bool :=
  match v with
  | .undefined => true
  | .null => true
  | .bool _ => true
  | .num _ => true
  | .str s => s = ""
  | .fn _ => true

/-- lodash `isFunction`. -/
def isFunction (v : JSVal) : Bool :=
  match v with
  | .fn _ => true
  | _ => false

/-- lodash `isInteger`: in this model every number is an integer. -/
def isInteger (v : JSVal) : Bool :=
  match v with
  | .num _ => true
  | _ => false

/-- JavaScript truthiness of a value (`!v` is the negation of this). -/
def jsTruthy (v : JSVal) : Bool :=
  match v with
  | .undefined => false
  | .null => false
  | .bool b => b
  | .num n => n ≠ 0
  | .str s => s ≠ ""
  | .fn _ => true

/-- JavaScript `v.toString()`.  Calling `toString` on `undefined` or `null`
throws a `TypeError`, modelled as `Except.error`. -/
def jsToString (v : JSVal) : Except Unit String :=
  match v with
  | .undefined => .error ()
  | .null => .error ()
  | .bool b => .ok (if b then "true" else "false")
  | .num n => .ok (toString n)
  | .str s => .ok s
  | .fn t => .ok ("function " ++ toString t)

/-- Helper for `splitComma`: accumulates the characters of the current
piece (in reverse) and cuts a piece at every comma. -/
def splitCommaAux : List Char → List Char → List String
  | [], acc => [String.mk acc.reverse]
  | c :: rest, acc =>
      if c = ',' then String.mk acc.reverse :: splitCommaAux rest []
      else splitCommaAux rest (c :: acc)

/-- JavaScript `s.split(',')`: the empty string yields `[""]`, otherwise the
comma-separated pieces in order. -/
def splitComma (s : String) : List String :=
  splitCommaAux s.data []

/-- lodash `intersection` under strict (SameValueZero) equality: the values
of the first list that also occur in the second, first occurrences kept. -/
def intersection (xs ys : List JSVal) : List JSVal :=
  (xs.filter (fun x => ys.contains x)).dedup

/-- `Bot._hasPermission`, the pure part: given the configured
`_allowedGroupIds` array and the `client_servergroups` field of the
`clientinfo` response, compute the boolean the promise resolves to.  The
response field is stringified and split on commas (a single group arrives
as a number, several as a comma-separated string), and the answer is
`true` iff the allowed list is empty or its strict-equality intersection
with the parsed group strings is non-empty.  Stringifying `undefined` or
`null` throws, which rejects the promise (`Except.error`). -/
def hasPermission (allowedGroupIds : List JSVal) (client_servergroups : JSVal) :
    Except Unit Bool :=
  match jsToString client_servergroups with
  | .error e => .error e
  | .ok s =>
      let groupIds := (splitComma s).map JSVal.str
      .ok (allowedGroupIds.length == 0 ||
        decide (0 < (intersection allowedGroupIds groupIds).length))

/-- One request handed to the transport's `send`: a command name and a
parameter mapping (an ordered association list of field names to values). -/
structure Request where
  cmd : String
  params : List (String × JSVal)
deriving DecidableEq, Repr

/-- JavaScript property access `obj[k]` on a response object: the stored
value, or `undefined` when the field is absent. -/
def jsGet (fields : List (String × JSVal)) (k : String) : JSVal :=
  (fields.lookup k).getD .undefined

/-- `Bot.sendPoke(clid, msg)`: the `clientpoke` request it sends. -/
def sendPoke (clid msg : JSVal) : Request :=
  ⟨"clientpoke", [("clid", clid), ("msg", msg)]⟩

/-- `Bot.kickClient(clid, message)`: the `clientkick` request it sends,
with the fixed reason code 4 and the given reason message. -/
def kickClient (clid message : JSVal) : Request :=
  ⟨"clientkick", [("clid", clid), ("reasonid", .num 4), ("reasonmsg", message)]⟩

/-- `Bot.sendMessage(clid, message)`: the `sendtextmessage` request it
sends (target mode 1 is a private message). -/
def sendMessage (clid message : JSVal) : Request :=
  ⟨"sendtextmessage", [("target", clid), ("targetmode", .num 1), ("msg", message)]⟩

/-- `Bot.joinChannel(cid, clid = this.whoami.client_id, password)`: the
`clientmove` request it sends.  `selfClientId` stands for
`this.whoami.client_id`, substituted when the `clid` argument is
`undefined` (the JavaScript default-parameter rule), and the `password`
field is added only when the `password` argument is not `undefined`. -/
def joinChannel (selfClientId cid clid password : JSVal) : Request :=
  let clidArg := if isUndefined clid then selfClientId else clid
  let payload := [("cid", cid), ("clid", clidArg)]
  ⟨"clientmove",
    if isUndefined password then payload else payload ++ [("password", password)]⟩

/-- Payload of a `clientmoved` or `cliententerview` notification:
destination channel `ctid` and client `clid`. -/
structure ChannelEvent where
  ctid : JSVal
  clid : JSVal
deriving DecidableEq, Repr

/-- Observable steps an event handler performs, in order: sending a
transport request, issuing the `clientinfo` group query for a client,
invoking one of the two configured action handlers (`true` = the success
handler, `false` = the noPerms handler), or logging a caught error for a
client. -/
inductive Effect where
  | sendReq : Request → Effect
  | queryGroups : JSVal → Effect
  | callAction : Bool → JSVal → Effect
  | logError : JSVal → Effect
deriving DecidableEq, Repr

/-- `Bot._onEnterView(viewEvent)`: when the event's destination channel is
not the configured channel nothing happens; otherwise the client is kicked
with reason message "Channel not allowed". -/
def onEnterView (channelId : JSVal) (viewEvent : ChannelEvent) : List Effect :=
  if viewEvent.ctid ≠ channelId then []
  else [.sendReq (kickClient viewEvent.clid (.str "Channel not allowed"))]

/-- `Bot._onClientMove(moveEvent)`: events whose destination channel is not
the configured one, or whose client is the bot itself, are ignored.
Otherwise the `clientinfo` group query is issued for the client; its
outcome is the `groupsResp` parameter (`Except.error` models a rejected
query, `.ok` carries the `client_servergroups` field).  On a resolved
query the `_hasPermission` computation picks the action handler; a
rejected query, a `TypeError` inside the permission computation, or an
exception thrown by the invoked handler (`handlerThrows`) all land in the
final `.catch`, which logs the error for that client. -/
def onClientMove (channelId ownClientId : JSVal) (allowedGroupIds : List JSVal)
    (moveEvent : ChannelEvent) (groupsResp : Except Unit JSVal)
    (handlerThrows : Bool) : List Effect :=
  if moveEvent.ctid ≠ channelId then []
  else if moveEvent.clid = ownClientId then []
  else
    .queryGroups moveEvent.clid ::
      match groupsResp with
      | .error _ => [.logError moveEvent.clid]
      | .ok sg =>
          match hasPermission allowedGroupIds sg with
          | .error _ => [.logError moveEvent.clid]
          | .ok allowed =>
              .callAction allowed moveEvent.clid ::
                (if handlerThrows then [.logError moveEvent.clid] else [])

/-- The event loop over a sequence of `clientmoved` notifications, each
paired with the outcome of its group query and whether its action handler
throws: the effects of the individual events, concatenated in order. -/
def processMoveEvents (channelId ownClientId : JSVal) (allowedGroupIds : List JSVal)
    (events : List (ChannelEvent × Except Unit JSVal × Bool)) : List Effect :=
  events.flatMap (fun e => onClientMove channelId ownClientId allowedGroupIds e.1 e.2.1 e.2.2)

/-- The credentials object stored by `Factory.withCredentials`. -/
structure Credentials where
  username : JSVal
  password : JSVal
  botName : JSVal
deriving DecidableEq, Repr

/-- The connection-info object stored by `Factory.withConnectionInfo`. -/
structure ConnectionInfo where
  address : JSVal
  queryPort : JSVal
  serverPort : JSVal
deriving DecidableEq, Repr

/-- The action pair stored by `Factory.withActions`: the `success` and
`noPerms` callbacks (opaque function values). -/
structure Actions where
  success : JSVal
  noPerms : JSVal
deriving DecidableEq, Repr

/-- `validateString(it, message)`: throws `message` when lodash `isEmpty`
holds of the argument. -/
def validateString (it : JSVal) (message : String) : Except String Unit :=
  if isEmpty it then .error message else .ok ()

/-- `validateFunction(it, message)`: throws `message` when the argument is
not a function. -/
def validateFunction (it : JSVal) (message : String) : Except String Unit :=
  if !isFunction it then .error message else .ok ()

/-- `validatePositiveInteger(it, message)`: throws `message` when the
argument is not an integer or is not positive. -/
def validatePositiveInteger (it : JSVal) (message : String) : Except String Unit :=
  match it with
  | .num n => if n ≤ 0 then .error message else .ok ()
  | _ => .error message

/-- The builder's mutable state: the five configuration slices, each at
its initial `undefined` value until the corresponding setter stores it.
Object-valued slices are `Option` (`none` is `undefined`; a stored object
is always truthy), while `_channelId` holds the raw value so that
`build()`'s truthiness test can be modelled exactly. -/
structure Factory where
  credentials : Option Credentials := none
  actions : Option Actions := none
  connectionInfo : Option ConnectionInfo := none
  channelId : JSVal := .undefined
  allowedGroupIds : Option (List JSVal) := none
deriving DecidableEq, Repr

/-- A setter outcome: `.ok` the updated builder, or `.error` the thrown
message together with the builder state at the moment of the throw. -/
abbrev SetterResult := Except (String × Factory) Factory

/-- `Factory.withCredentials(username, password, botName)`: validates the
three strings in order, then stores the credentials object. -/
def withCredentials (f : Factory) (username password botName : JSVal) : SetterResult :=
  match validateString username "Invalid username" with
  | .error e => .error (e, f)
  | .ok _ =>
  match validateString password "Invalid password" with
  | .error e => .error (e, f)
  | .ok _ =>
  match validateString botName "Invalid bot name" with
  | .error e => .error (e, f)
  | .ok _ => .ok { f with credentials := some ⟨username, password, botName⟩ }

/-- `Factory.withActions(success, noPerms)`: validates that both arguments
are functions, then stores the action pair. -/
def withActions (f : Factory) (success noPerms : JSVal) : SetterResult :=
  match validateFunction success "Invalid success function" with
  | .error e => .error (e, f)
  | .ok _ =>
  match validateFunction noPerms "Invalid noPerms function" with
  | .error e => .error (e, f)
  | .ok _ => .ok { f with actions := some ⟨success, noPerms⟩ }

/-- `Factory.withConnectionInfo(address, queryPort, serverPort)`: validates
the address and the two ports, then stores the connection info. -/
def withConnectionInfo (f : Factory) (address queryPort serverPort : JSVal) : SetterResult :=
  match validateString address "Invalid address" with
  | .error e => .error (e, f)
  | .ok _ =>
  match validatePositiveInteger queryPort "Invalid query port" with
  | .error e => .error (e, f)
  | .ok _ =>
  match validatePositiveInteger serverPort "Invalid server port" with
  | .error e => .error (e, f)
  | .ok _ => .ok { f with connectionInfo := some ⟨address, queryPort, serverPort⟩ }

/-- `Factory.inChannel(channelId)`: validates a positive integer, then
stores the channel id. -/
def inChannel (f : Factory) (channelId : JSVal) : SetterResult :=
  match validatePositiveInteger channelId "Invalid channel id" with
  | .error e => .error (e, f)
  | .ok _ => .ok { f with channelId := channelId }

/-- Validation loop of `Factory.withAllowedGroups`: `groups.forEach(it =>
validatePositiveInteger(it, 'Invalid group ID'))`, stopping at the first
throw. -/
def validateGroups : List JSVal → Except String Unit
  | [] => .ok ()
  | g :: rest =>
      match validatePositiveInteger g "Invalid group ID" with
      | .error e => .error e
      | .ok _ => validateGroups rest

/-- `Factory.withAllowedGroups(groups = [])`: `none` models an omitted or
`undefined` argument, replaced by the default empty array; every element
is validated before the array is stored. -/
def withAllowedGroups (f : Factory) (groups : Option (List JSVal)) : SetterResult :=
  let gs := groups.getD []
  match validateGroups gs with
  | .error e => .error (e, f)
  | .ok _ => .ok { f with allowedGroupIds := some gs }

/-- The `Bot` object (named `TSBot` here to avoid the ambient order-theoretic
`Bot`): the five configuration slices stored by its constructor, in
constructor-argument order. -/
structure TSBot where
  credentials : Credentials
  connectionInfo : ConnectionInfo
  channelId : JSVal
  actions : Actions
  allowedGroupIds : List JSVal
deriving DecidableEq, Repr

/-- `Factory.build()`: checks the five slices for truthiness in source
order (`undefined` object slices and a falsy `_channelId` fail), then
constructs the `Bot` from exactly the stored values. -/
def build (f : Factory) : Except String TSBot :=
  match f.credentials with
  | none => .error "Missing credentials"
  | some cred =>
  match f.actions with
  | none => .error "Missing actions"
  | some acts =>
  match f.connectionInfo with
  | none => .error "Missing connection info"
  | some ci =>
  if !jsTruthy f.channelId then .error "Missing channel ID"
  else
  match f.allowedGroupIds with
  | none => .error "Missing allowed groups"
  | some gs => .ok ⟨cred, ci, f.channelId, acts, gs⟩

/-- A parsed transport response: an association list of fields. -/
abbrev Response := List (String × JSVal)

/-- State of the bot's single connection while running: the scripted
transport (`oracle` maps the index of a request to the response or error
the transport answers with), the requests sent so far in order, the stored
`whoami` response (`none` is the constructor's `null`), and whether the
keep-alive interval timer has been started. -/
structure ConnState where
  oracle : Nat → Except String Response
  sent : List Request
  whoami : Option Response
  keepAlive : Bool

/-- The connection state right after the `Bot` constructor ran: nothing
sent, `whoami` still `null`, no keep-alive. -/
def initState (oracle : Nat → Except String Response) : ConnState :=
  ⟨oracle, [], none, false⟩

/-- `this._send(cmd, params)`: records the request and consumes the next
scripted response. -/
def sendQuery (st : ConnState) (req : Request) : Except String Response × ConnState :=
  (st.oracle st.sent.length, { st with sent := st.sent ++ [req] })

/-- `Bot._login()`: the `login` request. -/
def loginReq (bot : TSBot) : Request :=
  ⟨"login", [("client_login_name", bot.credentials.username),
             ("client_login_password", bot.credentials.password)]⟩

/-- `Bot._useServer()`: the `use` request selecting the virtual server by
its port. -/
def useServerReq (bot : TSBot) : Request :=
  ⟨"use", [("port", bot.connectionInfo.serverPort)]⟩

/-- `Bot._changeName()`: the `clientupdate` request setting the bot's
nickname. -/
def changeNameReq (bot : TSBot) : Request :=
  ⟨"clientupdate", [("client_nickname", bot.credentials.botName)]⟩

/-- `Bot._whoami()`: the `whoami` request (empty parameter map). -/
def whoamiReq : Request := ⟨"whoami", []⟩

/-- `Bot._notifyForEvents()`: the `servernotifyregister` request for
channel events on the configured channel. -/
def notifyForEventsReq (bot : TSBot) : Request :=
  ⟨"servernotifyregister", [("event", .str "channel"), ("id", bot.channelId)]⟩

/-- `Bot._connect()`: the promise chain login → use → clientupdate →
whoami (storing the response) → joinChannel(channelId) (client id taken
from the stored whoami, no password) → servernotifyregister.  Each step's
request is sent only after the previous step resolved; the first rejected
step short-circuits the chain with its error. -/
def connect (bot : TSBot) (st : ConnState) : Except String Unit × ConnState :=
  match sendQuery st (loginReq bot) with
  | (.error e, st1) => (.error e, st1)
  | (.ok _, st1) =>
  match sendQuery st1 (useServerReq bot) with
  | (.error e, st2) => (.error e, st2)
  | (.ok _, st2) =>
  match sendQuery st2 (changeNameReq bot) with
  | (.error e, st3) => (.error e, st3)
  | (.ok _, st3) =>
  match sendQuery st3 whoamiReq with
  | (.error e, st4) => (.error e, st4)
  | (.ok r, st4) =>
  let st4w := { st4 with whoami := some r }
  match sendQuery st4w (joinChannel (jsGet r "client_id") bot.channelId .undefined .undefined) with
  | (.error e, st5) => (.error e, st5)
  | (.ok _, st5) =>
  match sendQuery st5 (notifyForEventsReq bot) with
  | (.error e, st6) => (.error e, st6)
  | (.ok _, st6) => (.ok (), st6)

/-- `Bot.start()`: registers the event listeners, runs `_connect()`, and
only once the whole chain has resolved starts the keep-alive interval; a
rejected chain surfaces its error to the caller and the keep-alive is
never started. -/
def start (bot : TSBot) (st : ConnState) : Except String Unit × ConnState :=
  match connect bot st with
  | (.error e, st') => (.error e, st')
  | (.ok _, st') => (.ok (), { st' with keepAlive := true })

/-- C1: the spec claims `hasPermission` answers via the intersection of
AllowedGroups with the client's reported groups, so that AllowedGroups
`[5, 7]` with reported groups "3,7" yields `true` and with "3,9" yields
`false`.  On the code, the validated integer allowed groups are compared
by strict equality against the strings produced by `split(',')`, so the
intersection is always empty and both inputs yield `false`; the same
groups supplied as strings (which `withAllowedGroups` rejects) would
match, isolating the number/string mismatch as the cause. -/
theorem hasPermission_integer_groups_never_match :
    hasPermission [JSVal.num 5, JSVal.num 7] (JSVal.str "3,7") = .ok false ∧
    hasPermission [JSVal.num 5, JSVal.num 7] (JSVal.str "3,9") = .ok false ∧
    hasPermission [JSVal.str "5", JSVal.str "7"] (JSVal.str "3,7") = .ok true :=
  ⟨rfl, rfl, rfl⟩

/-- C2: with an empty AllowedGroups list, `hasPermission` resolves to
`true` for every reported group value (any string, including the empty
one, or any number), because the emptiness test short-circuits the
intersection. -/
theorem hasPermission_empty_allowed_groups (sg : JSVal)
    (h1 : sg ≠ JSVal.undefined) (h2 : sg ≠ JSVal.null) :
    hasPermission [] sg = .ok true := by
  cases sg with
  | undefined => exact absurd rfl h1
  | null => exact absurd rfl h2
  | bool b => rfl
  | num n => rfl
  | str s => rfl
  | fn t => rfl

/-- Witness for C2 at the concrete reported group sets "3,9" and "". -/
theorem hasPermission_empty_allowed_groups_witness :
    hasPermission [] (JSVal.str "3,9") = .ok true ∧
    hasPermission [] (JSVal.str "") = .ok true :=
  ⟨hasPermission_empty_allowed_groups (JSVal.str "3,9") (by decide) (by decide),
   hasPermission_empty_allowed_groups (JSVal.str "") (by decide) (by decide)⟩

/-- C3: an enter-view event into the configured channel produces exactly
one effect, the kick request with reason message "Channel not allowed" —
no group query and no action-handler call — and an enter-view event for
any other channel produces no effect at all. -/
theorem onEnterView_always_kicks (channelId : JSVal) (viewEvent : ChannelEvent) :
    onEnterView channelId viewEvent =
      (if viewEvent.ctid = channelId
        then [Effect.sendReq (kickClient viewEvent.clid (JSVal.str "Channel not allowed"))]
        else []) := by
  by_cases h : viewEvent.ctid = channelId <;> simp [onEnterView, h]

/-- C7: a move event whose destination channel is not the configured one,
or whose client id is the bot's own identity, produces no effect: no group
query is issued and neither action handler is invoked. -/
theorem onClientMove_irrelevant_events_ignored (channelId ownClientId : JSVal)
    (allowedGroupIds : List JSVal) (moveEvent : ChannelEvent)
    (groupsResp : Except Unit JSVal) (handlerThrows : Bool)
    (h : moveEvent.ctid ≠ channelId ∨ moveEvent.clid = ownClientId) :
    onClientMove channelId ownClientId allowedGroupIds moveEvent groupsResp handlerThrows
      = [] := by
  rcases h with h | h
  · simp [onClientMove, h]
  · by_cases hc : moveEvent.ctid = channelId <;> simp [onClientMove, h, hc]

/-- Witness for C7: a move into another channel, and a move of the bot
itself into the configured channel. -/
theorem onClientMove_irrelevant_events_ignored_witness :
    onClientMove (JSVal.num 1173) (JSVal.num 9) [JSVal.num 5]
      ⟨JSVal.num 4, JSVal.num 42⟩ (.ok (JSVal.str "3,7")) false = [] ∧
    onClientMove (JSVal.num 1173) (JSVal.num 9) [JSVal.num 5]
      ⟨JSVal.num 1173, JSVal.num 9⟩ (.ok (JSVal.str "3,7")) false = [] :=
  ⟨onClientMove_irrelevant_events_ignored _ _ _ _ _ _ (Or.inl (by decide)),
   onClientMove_irrelevant_events_ignored _ _ _ _ _ _ (Or.inr rfl)⟩

/-- C8: per-event errors are contained.  First conjunct: when the group
query for a qualifying move event fails, the only effects are the query
and the logged error — neither action handler is invoked.  Second
conjunct: when the permission promise resolves but the invoked handler
throws, the error is likewise caught and logged after the handler call.
Third conjunct: event processing is compositional, so the effects of later
events are produced unchanged after any earlier event, including failing
ones — no event outcome terminates the loop. -/
theorem onClientMove_errors_contained (channelId ownClientId : JSVal)
    (allowedGroupIds : List JSVal) :
    (∀ (moveEvent : ChannelEvent) (handlerThrows : Bool),
      moveEvent.ctid = channelId → moveEvent.clid ≠ ownClientId →
      onClientMove channelId ownClientId allowedGroupIds moveEvent (.error ()) handlerThrows
        = [Effect.queryGroups moveEvent.clid, Effect.logError moveEvent.clid]) ∧
    (∀ (moveEvent : ChannelEvent) (sg : JSVal) (allowed : Bool),
      moveEvent.ctid = channelId → moveEvent.clid ≠ ownClientId →
      hasPermission allowedGroupIds sg = .ok allowed →
      onClientMove channelId ownClientId allowedGroupIds moveEvent (.ok sg) true
        = [Effect.queryGroups moveEvent.clid, Effect.callAction allowed moveEvent.clid,
           Effect.logError moveEvent.clid]) ∧
    (∀ evs1 evs2, processMoveEvents channelId ownClientId allowedGroupIds (evs1 ++ evs2)
      = processMoveEvents channelId ownClientId allowedGroupIds evs1 ++
          processMoveEvents channelId ownClientId allowedGroupIds evs2) := by
  refine ⟨?_, ?_, ?_⟩
  · intro ev hf hctid hclid
    simp [onClientMove, hctid, hclid]
  · intro ev sg allowed hctid hclid hperm
    simp [onClientMove, hctid, hclid, hperm]
  · intro evs1 evs2
    simp [processMoveEvents]

/-- Witness for C8: a failed group query for client 42 in channel 1173
logs and skips the handlers, a throwing handler is caught after its call,
and a concrete split of the event list processes both halves. -/
theorem onClientMove_errors_contained_witness :
    onClientMove (JSVal.num 1173) (JSVal.num 9) [JSVal.num 5]
      ⟨JSVal.num 1173, JSVal.num 42⟩ (.error ()) false
      = [Effect.queryGroups (JSVal.num 42), Effect.logError (JSVal.num 42)] ∧
    onClientMove (JSVal.num 1173) (JSVal.num 9) [JSVal.num 5]
      ⟨JSVal.num 1173, JSVal.num 42⟩ (.ok (JSVal.str "3,7")) true
      = [Effect.queryGroups (JSVal.num 42), Effect.callAction false (JSVal.num 42),
         Effect.logError (JSVal.num 42)] ∧
    processMoveEvents (JSVal.num 1173) (JSVal.num 9) [JSVal.num 5]
      ([(⟨JSVal.num 1173, JSVal.num 42⟩, .error (), false)] ++
        [(⟨JSVal.num 1173, JSVal.num 43⟩, .ok (JSVal.str "3,7"), false)])
      = processMoveEvents (JSVal.num 1173) (JSVal.num 9) [JSVal.num 5]
          [(⟨JSVal.num 1173, JSVal.num 42⟩, .error (), false)] ++
        processMoveEvents (JSVal.num 1173) (JSVal.num 9) [JSVal.num 5]
          [(⟨JSVal.num 1173, JSVal.num 43⟩, .ok (JSVal.str "3,7"), false)] :=
  ⟨(onClientMove_errors_contained (JSVal.num 1173) (JSVal.num 9) [JSVal.num 5]).1
      ⟨JSVal.num 1173, JSVal.num 42⟩ false rfl (by decide),
   (onClientMove_errors_contained (JSVal.num 1173) (JSVal.num 9) [JSVal.num 5]).2.1
      ⟨JSVal.num 1173, JSVal.num 42⟩ (JSVal.str "3,7") false rfl (by decide) rfl,
   (onClientMove_errors_contained (JSVal.num 1173) (JSVal.num 9) [JSVal.num 5]).2.2
      [(⟨JSVal.num 1173, JSVal.num 42⟩, .error (), false)]
      [(⟨JSVal.num 1173, JSVal.num 43⟩, .ok (JSVal.str "3,7"), false)]⟩

/-- C4: a builder on which all five slices have been stored (the channel
id necessarily a positive integer, since `inChannel` admits nothing else)
builds successfully into a `Bot` carrying exactly the stored values, while
a builder on which any slice is still at its initial `undefined` value
fails with a thrown error. -/
theorem build_complete_config (f : Factory) :
    (∀ (cred : Credentials) (acts : Actions) (ci : ConnectionInfo) (n : Int)
        (gs : List JSVal),
      f.credentials = some cred → f.actions = some acts → f.connectionInfo = some ci →
      f.channelId = JSVal.num n → 0 < n → f.allowedGroupIds = some gs →
      build f = .ok ⟨cred, ci, JSVal.num n, acts, gs⟩) ∧
    ((f.credentials = none ∨ f.actions = none ∨ f.connectionInfo = none ∨
        f.channelId = JSVal.undefined ∨ f.allowedGroupIds = none) →
      ∃ e, build f = .error e) := by
  constructor
  · intro cred acts ci n gs hcred hact hci hch hn hag
    have hne : n ≠ 0 := by omega
    simp [build, hcred, hact, hci, hch, hag, jsTruthy, hne]
  · intro h
    rcases hcred : f.credentials with _ | cred
    · exact ⟨"Missing credentials", by simp [build, hcred]⟩
    rcases hact : f.actions with _ | acts
    · exact ⟨"Missing actions", by simp [build, hcred, hact]⟩
    rcases hci : f.connectionInfo with _ | ci
    · exact ⟨"Missing connection info", by simp [build, hcred, hact, hci]⟩
    by_cases hch : jsTruthy f.channelId
    · rcases hag : f.allowedGroupIds with _ | gs
      · exact ⟨"Missing allowed groups", by simp [build, hcred, hact, hci, hch, hag]⟩
      · exfalso
        rcases h with h | h | h | h | h
        · rw [h] at hcred; exact Option.noConfusion hcred
        · rw [h] at hact; exact Option.noConfusion hact
        · rw [h] at hci; exact Option.noConfusion hci
        · rw [h] at hch; exact Bool.noConfusion hch
        · rw [h] at hag; exact Option.noConfusion hag
    · exact ⟨"Missing channel ID", by simp [build, hcred, hact, hci, hch]⟩

/-- A fully configured builder, with the example's values. -/
def c4SampleFactory : Factory :=
  { credentials := some ⟨.str "serveradmin", .str "password", .str "TEST"⟩,
    actions := some ⟨.fn 0, .fn 1⟩,
    connectionInfo := some ⟨.str "uhc.gg", .num 10011, .num 9989⟩,
    channelId := .num 1173,
    allowedGroupIds := some [] }

/-- Witness for C4: the fully configured sample builder builds into the
`Bot` holding exactly its values, and the fresh builder fails. -/
theorem build_complete_config_witness :
    build c4SampleFactory =
      .ok ⟨⟨.str "serveradmin", .str "password", .str "TEST"⟩,
           ⟨.str "uhc.gg", .num 10011, .num 9989⟩, .num 1173, ⟨.fn 0, .fn 1⟩, []⟩ ∧
    (∃ e, build {} = .error e) :=
  ⟨(build_complete_config c4SampleFactory).1 _ _ _ 1173 _ rfl rfl rfl rfl (by decide) rfl,
   (build_complete_config {}).2 (Or.inl rfl)⟩

/-- C9: every setter validates all of its arguments before storing
anything, so a setter call that throws leaves the builder exactly as it
was (the builder state carried by the thrown outcome is the input state). -/
theorem setters_atomic_on_failure (f : Factory)
    (username password botName success noPerms address queryPort serverPort channelId : JSVal)
    (groups : Option (List JSVal)) (e : String) (f' : Factory) :
    (withCredentials f username password botName = .error (e, f') → f' = f) ∧
    (withActions f success noPerms = .error (e, f') → f' = f) ∧
    (withConnectionInfo f address queryPort serverPort = .error (e, f') → f' = f) ∧
    (inChannel f channelId = .error (e, f') → f' = f) ∧
    (withAllowedGroups f groups = .error (e, f') → f' = f) := by
  refine ⟨?_, ?_, ?_, ?_, ?_⟩
  · intro h
    unfold withCredentials at h
    repeat' split at h
    all_goals simp_all
  · intro h
    unfold withActions at h
    repeat' split at h
    all_goals simp_all
  · intro h
    unfold withConnectionInfo at h
    repeat' split at h
    all_goals simp_all
  · intro h
    unfold inChannel at h
    repeat' split at h
    all_goals simp_all
  · intro h
    unfold withAllowedGroups at h
    cases hv : validateGroups (groups.getD []) <;> simp [hv] at h
    simp_all

/-- A builder holding one slice already, the example channel. -/
def c9SampleFactory : Factory := { channelId := .num 1173 }

/-- Witness for C9: feeding an empty username to `withCredentials` on a
builder that already holds a channel id throws and hands back the
unchanged builder. -/
theorem setters_atomic_on_failure_witness : c9SampleFactory = c9SampleFactory :=
  (setters_atomic_on_failure c9SampleFactory (.str "") (.str "pw") (.str "TEST")
    (.fn 0) (.fn 1) (.str "uhc.gg") (.num 10011) (.num 9989) (.num 1173) (some [])
    "Invalid username" c9SampleFactory).1 rfl

/-- C6: a `joinChannel` call with the password argument `undefined` (that
is, not supplied) yields a payload carrying no `password` field at all,
whereas any supplied password value — the empty string included — yields
the payload extended with a `password` field holding exactly that value. -/
theorem joinChannel_password_omission (selfClientId cid clid password : JSVal) :
    "password" ∉ (joinChannel selfClientId cid clid JSVal.undefined).params.map Prod.fst ∧
    (password ≠ JSVal.undefined →
      (joinChannel selfClientId cid clid password).params =
        [("cid", cid), ("clid", if isUndefined clid then selfClientId else clid),
         ("password", password)]) := by
  constructor
  · simp [joinChannel, isUndefined]
  · intro hp
    have : isUndefined password = false := by
      cases password <;> simp_all [isUndefined]
    simp [joinChannel, this]

/-- Witness for C6: with the empty-string password the payload carries
`password: ""`, while the unsupplied-password payload has no such field. -/
theorem joinChannel_password_omission_witness :
    "password" ∉ (joinChannel (JSVal.num 9) (JSVal.num 1173) JSVal.undefined
        JSVal.undefined).params.map Prod.fst ∧
    (joinChannel (JSVal.num 9) (JSVal.num 1173) JSVal.undefined (JSVal.str "")).params =
      [("cid", JSVal.num 1173), ("clid", JSVal.num 9), ("password", JSVal.str "")] := by
  refine ⟨(joinChannel_password_omission (JSVal.num 9) (JSVal.num 1173)
      JSVal.undefined JSVal.undefined).1, ?_⟩
  have := (joinChannel_password_omission (JSVal.num 9) (JSVal.num 1173)
      JSVal.undefined (JSVal.str "")).2 (by decide)
  simpa [isUndefined] using this

/-- C10: `kickClient` always sends the single command `clientkick` with
payload `{clid, reasonid: 4, reasonmsg: message}` — the reason code is the
constant 4 for every kick — and the enter-view handler's kick is exactly
such a request with message "Channel not allowed". -/
theorem kickClient_fixed_reason (clid message ch evClid : JSVal) :
    kickClient clid message =
      ⟨"clientkick", [("clid", clid), ("reasonid", JSVal.num 4),
                      ("reasonmsg", message)]⟩ ∧
    onEnterView ch ⟨ch, evClid⟩ =
      [Effect.sendReq ⟨"clientkick",
        [("clid", evClid), ("reasonid", JSVal.num 4),
         ("reasonmsg", JSVal.str "Channel not allowed")]⟩] := by
  constructor
  · rfl
  · simp [onEnterView, kickClient]

/-- C5: the handshake.  First conjunct: when the transport answers every
request successfully, `start` resolves, the requests sent are exactly
login, server selection by port, nickname update, whoami, the move of the
bot itself (under the client id stored from the whoami response) into the
configured channel, and the channel-notification registration — in that
order, each consuming the response of its position — the whoami response
is stored, and the keep-alive is started.  Second conjunct: if the
transport rejects the request at any position `k` of the six after
answering all earlier ones, `start` surfaces exactly that error, exactly
`k + 1` requests were sent (no later step began), and the keep-alive was
never started. -/
theorem start_handshake_sequence (bot : TSBot) (o : Nat → Except String Response) :
    (∀ r0 r1 r2 r3 r4 r5,
      o 0 = .ok r0 → o 1 = .ok r1 → o 2 = .ok r2 → o 3 = .ok r3 →
      o 4 = .ok r4 → o 5 = .ok r5 →
      start bot (initState o) =
        (.ok (), { oracle := o,
                   sent := [loginReq bot, useServerReq bot, changeNameReq bot, whoamiReq,
                            joinChannel (jsGet r3 "client_id") bot.channelId .undefined .undefined,
                            notifyForEventsReq bot],
                   whoami := some r3,
                   keepAlive := true })) ∧
    (∀ k e, k < 6 → (∀ i, i < k → ∃ r, o i = .ok r) → o k = .error e →
      (start bot (initState o)).1 = .error e ∧
      (start bot (initState o)).2.sent.length = k + 1 ∧
      (start bot (initState o)).2.keepAlive = false) := by
  constructor
  · intro r0 r1 r2 r3 r4 r5 h0 h1 h2 h3 h4 h5
    simp [start, connect, initState, sendQuery, h0, h1, h2, h3, h4, h5]
  · intro k e hk hprev hko
    interval_cases k
    · refine ⟨?_, ?_, ?_⟩ <;> simp [start, connect, initState, sendQuery, hko]
    · obtain ⟨r0, h0⟩ := hprev 0 (by omega)
      refine ⟨?_, ?_, ?_⟩ <;> simp [start, connect, initState, sendQuery, h0, hko]
    · obtain ⟨r0, h0⟩ := hprev 0 (by omega)
      obtain ⟨r1, h1⟩ := hprev 1 (by omega)
      refine ⟨?_, ?_, ?_⟩ <;> simp [start, connect, initState, sendQuery, h0, h1, hko]
    · obtain ⟨r0, h0⟩ := hprev 0 (by omega)
      obtain ⟨r1, h1⟩ := hprev 1 (by omega)
      obtain ⟨r2, h2⟩ := hprev 2 (by omega)
      refine ⟨?_, ?_, ?_⟩ <;> simp [start, connect, initState, sendQuery, h0, h1, h2, hko]
    · obtain ⟨r0, h0⟩ := hprev 0 (by omega)
      obtain ⟨r1, h1⟩ := hprev 1 (by omega)
      obtain ⟨r2, h2⟩ := hprev 2 (by omega)
      obtain ⟨r3, h3⟩ := hprev 3 (by omega)
      refine ⟨?_, ?_, ?_⟩ <;>
        simp [start, connect, initState, sendQuery, h0, h1, h2, h3, hko]
    · obtain ⟨r0, h0⟩ := hprev 0 (by omega)
      obtain ⟨r1, h1⟩ := hprev 1 (by omega)
      obtain ⟨r2, h2⟩ := hprev 2 (by omega)
      obtain ⟨r3, h3⟩ := hprev 3 (by omega)
      obtain ⟨r4, h4⟩ := hprev 4 (by omega)
      refine ⟨?_, ?_, ?_⟩ <;>
        simp [start, connect, initState, sendQuery, h0, h1, h2, h3, h4, hko]

/-- The example's bot configuration. -/
def c5SampleBot : TSBot :=
  ⟨⟨.str "serveradmin", .str "password", .str "TEST"⟩,
   ⟨.str "uhc.gg", .num 10011, .num 9989⟩, .num 1173, ⟨.fn 0, .fn 1⟩, []⟩

/-- A transport that answers every request with a whoami-style response. -/
def c5OkOracle : Nat → Except String Response :=
  fun _ => .ok [("client_id", JSVal.num 9)]

/-- A transport that rejects the third request (the nickname update) and
answers the rest. -/
def c5FailOracle : Nat → Except String Response :=
  fun i => if i = 2 then .error "nickname rejected" else .ok [("client_id", JSVal.num 9)]

/-- Witness for C5: against the all-ok transport the sample bot sends the
six requests in order and starts the keep-alive; against the transport
rejecting the third request it surfaces that error after exactly three
requests, keep-alive never started. -/
theorem start_handshake_sequence_witness :
    start c5SampleBot (initState c5OkOracle) =
      (.ok (), { oracle := c5OkOracle,
                 sent := [loginReq c5SampleBot, useServerReq c5SampleBot,
                          changeNameReq c5SampleBot, whoamiReq,
                          joinChannel (jsGet [("client_id", JSVal.num 9)] "client_id")
                            c5SampleBot.channelId .undefined .undefined,
                          notifyForEventsReq c5SampleBot],
                 whoami := some [("client_id", JSVal.num 9)],
                 keepAlive := true }) ∧
    ((start c5SampleBot (initState c5FailOracle)).1 = .error "nickname rejected" ∧
      (start c5SampleBot (initState c5FailOracle)).2.sent.length = 2 + 1 ∧
      (start c5SampleBot (initState c5FailOracle)).2.keepAlive = false) :=
  ⟨(start_handshake_sequence c5SampleBot c5OkOracle).1 _ _ _ _ _ _
      rfl rfl rfl rfl rfl rfl,
   (start_handshake_sequence c5SampleBot c5FailOracle).2 2 "nickname rejected"
      (by omega)
      (fun i hi => ⟨[("client_id", JSVal.num 9)], by interval_cases i <;> rfl⟩)
      rfl⟩
